import Mathlib

/-!
Verification of the claude-runner repository (src/claude-runner/main.py and
src/claude-runner/claude_sdk_runner.py) against its natural-language spec.

The shallow embedding below translates the Python source into Lean:
environment reads become an explicit `Env` record, the external SDK/agent
behaviour is a parameter (`AgentRun` / `QueryOutcome`), HTTP status delivery
outcomes are a parameter (`Delivery`), and each status update sent is
collected into an explicit trace.
-/

/-- The session phase reported to the backend: `Running`, `Completed`, `Failed`. -/
inductive Phase
  | Running
  | Completed
  | Failed
  deriving DecidableEq

/-- A session status update, as built in `run_research_session`:
fields `phase`, `message`, optional `startTime`, `completionTime`, `finalOutput`. -/
structure StatusUpdate where
  phase : Phase
  message : String
  startTime : Option String := none
  completionTime : Option String := none
  finalOutput : Option String := none
  deriving DecidableEq

/-- The process environment: `os.getenv` for each variable the program reads.
`none` models an unset variable; `some s` a variable set to `s`. -/
structure Env where
  RESEARCH_SESSION_NAME : Option String
  RESEARCH_SESSION_NAMESPACE : Option String
  PROMPT : Option String
  WEBSITE_URL : Option String
  TIMEOUT : Option String
  BACKEND_API_URL : Option String
  ANTHROPIC_API_KEY : Option String
  deriving DecidableEq

/-- Python truthiness of `os.getenv(var)`: `None` and `""` are falsy,
any non-empty string is truthy (used by `if not os.getenv(var)` checks). -/
def truthy : Option String → Bool
  | none => false
  | some s => !(s == "")

/-- ASCII whitespace, for modelling Python's `str.strip()`. -/
def isWs (c : Char) : Bool := c == ' ' || c == '\t' || c == '\n' || c == '\r'

/-- Python `str.strip()`: remove leading and trailing whitespace. -/
def pyStrip (s : String) : String :=
  String.mk (((s.data.dropWhile isWs).reverse.dropWhile isWs).reverse)

/-- The numeric value of a decimal digit character, `none` otherwise. -/
def digitVal? (c : Char) : Option Nat :=
  if '0' ≤ c ∧ c ≤ '9' then some (c.toNat - '0'.toNat) else none

/-- Accumulating decimal parser over a character list. -/
def pyIntAux : List Char → Nat → Option Nat
  | [], acc => some acc
  | c :: cs, acc =>
      match digitVal? c with
      | some d => pyIntAux cs (10 * acc + d)
      | none => none

/-- Python `int(s)` for non-negative decimal input: `none` models the
`ValueError` raised on an empty or non-numeric string. -/
def pyInt? (s : String) : Option Nat :=
  match s.data with
  | [] => none
  | cs => pyIntAux cs 0

/-- The configuration held by a `ClaudeRunner` instance after `__init__`. -/
structure Config where
  session_name : String
  session_namespace : String
  prompt : String
  website_url : String
  timeout : Nat
  backend_api_url : String
  deriving DecidableEq

/-- `ClaudeRunner.__init__` (main.py lines 25-42): reads the environment with
defaults, parses `TIMEOUT` with `int(...)` (which raises on a non-numeric
string), and raises `ValueError` when `ANTHROPIC_API_KEY` is falsy. -/
def claudeRunnerInit (e : Env) : Except String Config :=
  match pyInt? (e.TIMEOUT.getD "300") with
  | none => Except.error "invalid literal for int() with base 10"
  | some t =>
      if truthy e.ANTHROPIC_API_KEY then
        Except.ok
          { session_name := e.RESEARCH_SESSION_NAME.getD ""
            session_namespace := e.RESEARCH_SESSION_NAMESPACE.getD "default"
            prompt := e.PROMPT.getD ""
            website_url := e.WEBSITE_URL.getD ""
            timeout := t
            backend_api_url := e.BACKEND_API_URL.getD "http://backend-service:8080/api" }
      else Except.error "ANTHROPIC_API_KEY environment variable is required"

/-- The outcome of one HTTP PUT attempt, from the runner's point of view:
either a response arrived (with status code and body text), or the transport
raised (connection refused, DNS failure, timeout, ...). -/
inductive Delivery
  | response (code : Nat) (body : String)
  | transportError (msg : String)
  deriving DecidableEq

/-- One outbound HTTP request as issued by `requests.put(url, json=..., timeout=30)`. -/
structure HttpRequest where
  method : String
  url : String
  body : StatusUpdate
  timeoutSeconds : Nat
  deriving DecidableEq

/-- The observable effect of one `update_session_status` call: the requests
attempted (retries would show as extra list entries), the log line produced,
and whether the Python function raised (`Except.error`) or returned normally. -/
structure UpdateCall where
  requests : List HttpRequest
  logLine : String
  outcome : Except String Unit

/-- The URL built in `update_session_status`:
`f"{self.backend_api_url}/research-sessions/{self.session_name}/status"`. -/
def sessionStatusUrl (cfg : Config) : String :=
  cfg.backend_api_url ++ "/research-sessions/" ++ cfg.session_name ++ "/status"

/-- The body of the `try` block: `requests.put` either returns a response
(code, body) or raises; the raise is modelled as `Except.error`. -/
def putStatus (d : Delivery) : Except String (Nat × String) :=
  match d with
  | Delivery.response code body => Except.ok (code, body)
  | Delivery.transportError m => Except.error m

/-- `ClaudeRunner.update_session_status` (main.py lines 343-365; the
claude_sdk_runner.py copy at lines 197-221 is textually identical):
one PUT with a 30-second client timeout; a non-200 status code is logged;
any exception from the transport is caught and logged; the function never
raises (`outcome` is always `Except.ok ()`). -/
def updateSessionStatus (cfg : Config) (u : StatusUpdate) (d : Delivery) : UpdateCall :=
  let req : HttpRequest :=
    { method := "PUT", url := sessionStatusUrl cfg, body := u, timeoutSeconds := 30 }
  match putStatus d with
  | Except.ok (code, body) =>
      if code ≠ 200 then
        { requests := [req]
          logLine := "Failed to update session status: " ++ toString code ++ " - " ++ body
          outcome := Except.ok () }
      else
        { requests := [req]
          logLine := "Session status updated successfully"
          outcome := Except.ok () }
  | Except.error m =>
      { requests := [req]
        logLine := "Error updating session status: " ++ m
        outcome := Except.ok () }

/-- What the external Claude SDK run does if allowed to finish:
the streamed response text joined together, or an exception with message. -/
inductive AgentEffect
  | returnsText (t : String)
  | raises (msg : String)
  deriving DecidableEq

/-- One supervised agent invocation: how long it runs (wall-clock seconds)
and what it does when it finishes. -/
structure AgentRun where
  duration : Nat
  effect : AgentEffect
  deriving DecidableEq

/-- The result of `_run_claude_code`: the returned text, or the `str` of the
exception that propagated out of it. -/
inductive RunResult
  | ok (text : String)
  | error (msg : String)
  deriving DecidableEq

/-- main.py line 201: `asyncio.wait_for(run_sdk(), timeout=60.0)` — the wait
timeout is hard-coded to 60 seconds; `self.timeout` is not used here. -/
def mainSdkWaitTimeout : Nat := 60

/-- main.py lines 211-213: the message of the `RuntimeError` raised when
`asyncio.wait_for` times out. -/
def timeoutMsg : String :=
  "Claude Code SDK timed out even in minimal mode - Kubernetes environment issue"

/-- main.py lines 180-183: the message of the `RuntimeError` raised when the
joined response text is empty after `strip()`. -/
def emptyResultMsg : String := "Claude Code SDK returned empty result"

/-- `ClaudeRunner._run_claude_code` (main.py lines 104-221): waits on the SDK
run with a hard-coded 60-second timeout; on timeout raises the fixed
`timeoutMsg`; otherwise an SDK exception propagates unchanged, and a returned
text that is empty after `strip()` raises `emptyResultMsg`; a non-empty text
is returned unchanged. (`str.strip()` is modelled by `pyStrip`.) -/
def runClaudeCode (agent : AgentRun) : RunResult :=
  if mainSdkWaitTimeout < agent.duration then
    RunResult.error timeoutMsg
  else
    match agent.effect with
    | AgentEffect.raises m => RunResult.error m
    | AgentEffect.returnsText t =>
        if pyStrip t = "" then RunResult.error emptyResultMsg else RunResult.ok t

/-- The first status update of `ClaudeRunner.run_research_session`
(main.py lines 52-58). -/
def runningU1 (startT : String) : StatusUpdate :=
  { phase := Phase.Running
    message := "Initializing Claude Code with Playwright MCP browser capabilities"
    startTime := some startT }

/-- The second status update of `ClaudeRunner.run_research_session`
(main.py lines 64-69). -/
def runningU2 (cfg : Config) : StatusUpdate :=
  { phase := Phase.Running
    message := "Claude Code analyzing " ++ cfg.website_url ++ " with agentic browser automation" }

/-- The `Completed` update of `ClaudeRunner.run_research_session`
(main.py lines 79-86). -/
def completedU (result endT : String) : StatusUpdate :=
  { phase := Phase.Completed
    message := "Research completed successfully using Claude Code + Playwright MCP"
    completionTime := some endT
    finalOutput := some result }

/-- The `Failed` update built in the `except` handler of both
`run_research_session` variants (main.py lines 94-99, claude_sdk_runner.py
lines 92-98): message `f"Research failed: {str(e)}"`. -/
def failedU (errMsg endT : String) : StatusUpdate :=
  { phase := Phase.Failed
    message := "Research failed: " ++ errMsg
    completionTime := some endT }

/-- Whether the session run returned normally or called `sys.exit(1)`. -/
inductive SessionEnd
  | completed
  | failedExit
  deriving DecidableEq

/-- `ClaudeRunner.run_research_session` (main.py lines 44-102), with the
delivery outcome of each PUT supplied by `dl`. Each `await
self.update_session_status(...)` sits inside the `try`, so a raise from it
would be caught by the `except` handler (post `Failed`, `sys.exit(1)`);
`updateSessionStatus` in fact never raises, making those branches dead.
Returns the list of updates posted (paired with their deliveries) and the
session end. -/
def runSession (cfg : Config) (agent : AgentRun) (startT endT : String)
    (dl : StatusUpdate → Delivery) : List (StatusUpdate × Delivery) × SessionEnd :=
  let u1 := runningU1 startT
  match (updateSessionStatus cfg u1 (dl u1)).outcome with
  | Except.error e1 =>
      let uf := failedU e1 endT
      ([(u1, dl u1), (uf, dl uf)], SessionEnd.failedExit)
  | Except.ok _ =>
    let u2 := runningU2 cfg
    match (updateSessionStatus cfg u2 (dl u2)).outcome with
    | Except.error e2 =>
        let uf := failedU e2 endT
        ([(u1, dl u1), (u2, dl u2), (uf, dl uf)], SessionEnd.failedExit)
    | Except.ok _ =>
      match runClaudeCode agent with
      | RunResult.ok result =>
          let uc := completedU result endT
          match (updateSessionStatus cfg uc (dl uc)).outcome with
          | Except.error e3 =>
              let uf := failedU e3 endT
              ([(u1, dl u1), (u2, dl u2), (uc, dl uc), (uf, dl uf)], SessionEnd.failedExit)
          | Except.ok _ =>
              ([(u1, dl u1), (u2, dl u2), (uc, dl uc)], SessionEnd.completed)
      | RunResult.error msg =>
          let uf := failedU msg endT
          ([(u1, dl u1), (u2, dl u2), (uf, dl uf)], SessionEnd.failedExit)

/-- The bare status-update trace of one `ClaudeRunner` session. -/
def sessionTrace (cfg : Config) (agent : AgentRun) (startT endT : String)
    (dl : StatusUpdate → Delivery) : List StatusUpdate :=
  (runSession cfg agent startT endT dl).1.map Prod.fst

/-- The response object returned by the external SDK `query` call in
claude_sdk_runner.py (fields read at lines 127-135). -/
structure SDKResponse where
  is_error : Bool
  error_message : String
  result : String
  deriving DecidableEq

/-- What `sdk.query(...)` does: return a response object, or raise. -/
inductive QueryOutcome
  | response (r : SDKResponse)
  | raises (msg : String)
  deriving DecidableEq

/-- `ClaudeSDKRunner._run_claude_code_sdk` (claude_sdk_runner.py lines
102-141): a raised exception propagates; a response with `is_error` raises
`RuntimeError(f"Claude Code SDK failed: {response.error_message}")`;
otherwise `response.result` is returned unchanged — with no emptiness check. -/
def runClaudeCodeSdk (q : QueryOutcome) : RunResult :=
  match q with
  | QueryOutcome.raises m => RunResult.error m
  | QueryOutcome.response r =>
      if r.is_error then
        RunResult.error ("Claude Code SDK failed: " ++ r.error_message)
      else RunResult.ok r.result

/-- The first status update of `ClaudeSDKRunner.run_research_session`
(claude_sdk_runner.py lines 52-58). -/
def sdkRunningU1 (startT : String) : StatusUpdate :=
  { phase := Phase.Running
    message := "Initializing Claude Code Python SDK with Playwright MCP"
    startTime := some startT }

/-- The second status update of `ClaudeSDKRunner.run_research_session`
(claude_sdk_runner.py lines 64-69). -/
def sdkRunningU2 (cfg : Config) : StatusUpdate :=
  { phase := Phase.Running
    message := "Claude Code analyzing " ++ cfg.website_url ++ " with SDK automation" }

/-- The `Completed` update of `ClaudeSDKRunner.run_research_session`
(claude_sdk_runner.py lines 77-84). -/
def sdkCompletedU (result endT : String) : StatusUpdate :=
  { phase := Phase.Completed
    message := "Research completed successfully using Claude Code Python SDK"
    completionTime := some endT
    finalOutput := some result }

/-- `ClaudeSDKRunner.run_research_session` (claude_sdk_runner.py lines
46-100): same shape as the main.py variant, with the SDK query outcome as
the agent behaviour. -/
def runSdkSession (cfg : Config) (q : QueryOutcome) (startT endT : String)
    (dl : StatusUpdate → Delivery) : List (StatusUpdate × Delivery) × SessionEnd :=
  let u1 := sdkRunningU1 startT
  match (updateSessionStatus cfg u1 (dl u1)).outcome with
  | Except.error e1 =>
      let uf := failedU e1 endT
      ([(u1, dl u1), (uf, dl uf)], SessionEnd.failedExit)
  | Except.ok _ =>
    let u2 := sdkRunningU2 cfg
    match (updateSessionStatus cfg u2 (dl u2)).outcome with
    | Except.error e2 =>
        let uf := failedU e2 endT
        ([(u1, dl u1), (u2, dl u2), (uf, dl uf)], SessionEnd.failedExit)
    | Except.ok _ =>
      match runClaudeCodeSdk q with
      | RunResult.ok result =>
          let uc := sdkCompletedU result endT
          match (updateSessionStatus cfg uc (dl uc)).outcome with
          | Except.error e3 =>
              let uf := failedU e3 endT
              ([(u1, dl u1), (u2, dl u2), (uc, dl uc), (uf, dl uf)], SessionEnd.failedExit)
          | Except.ok _ =>
              ([(u1, dl u1), (u2, dl u2), (uc, dl uc)], SessionEnd.completed)
      | RunResult.error msg =>
          let uf := failedU msg endT
          ([(u1, dl u1), (u2, dl u2), (uf, dl uf)], SessionEnd.failedExit)

/-- The bare status-update trace of one `ClaudeSDKRunner` session. -/
def sdkSessionTrace (cfg : Config) (q : QueryOutcome) (startT endT : String)
    (dl : StatusUpdate → Delivery) : List StatusUpdate :=
  (runSdkSession cfg q startT endT dl).1.map Prod.fst

/-- The required-variable list checked in `main` (main.py lines 373-379),
paired with the value each read yields. -/
def requiredEnv (e : Env) : List (String × Option String) :=
  [("RESEARCH_SESSION_NAME", e.RESEARCH_SESSION_NAME),
   ("PROMPT", e.PROMPT),
   ("WEBSITE_URL", e.WEBSITE_URL),
   ("ANTHROPIC_API_KEY", e.ANTHROPIC_API_KEY)]

/-- `missing_vars = [var for var in required_vars if not os.getenv(var)]`
(main.py line 379). -/
def missingVars (e : Env) : List String :=
  ((requiredEnv e).filter (fun p => !truthy p.2)).map (fun p => p.1)

/-- `main` (main.py lines 368-397): validate the environment (exit 1 with no
updates if any required variable is falsy); construct the runner (an
exception is caught by `except Exception` and exits 1); run the session.
A `KeyboardInterrupt` (modelled as firing during the agent wait, after the
two `Running` updates) is a `BaseException`, so it passes the session's
`except Exception` and reaches `main`'s `except KeyboardInterrupt`, which
exits 0. A `sys.exit(1)` from the session's failure path raises
`SystemExit`, which no `except` clause here catches, so the process exits 1.
Returns the delivered updates and the process exit code. -/
def mainEntry (e : Env) (agent : AgentRun) (intr : Bool) (startT endT : String)
    (dl : StatusUpdate → Delivery) : List (StatusUpdate × Delivery) × Nat :=
  if missingVars e = [] then
    match claudeRunnerInit e with
    | Except.error _ => ([], 1)
    | Except.ok cfg =>
        if intr then
          (([runningU1 startT, runningU2 cfg]).map (fun u => (u, dl u)), 0)
        else
          match (runSession cfg agent startT endT dl).2 with
          | SessionEnd.completed => ((runSession cfg agent startT endT dl).1, 0)
          | SessionEnd.failedExit => ((runSession cfg agent startT endT dl).1, 1)
  else ([], 1)

/-- A phase is terminal when it is `Completed` or `Failed`. -/
def isTerminal : Phase → Bool
  | Phase.Running => false
  | Phase.Completed => true
  | Phase.Failed => true

/-- Boolean list-prefix test on character lists. -/
def prefB : List Char → List Char → Bool
  | [], _ => true
  | _ :: _, [] => false
  | a :: as, b :: bs => a == b && prefB as bs

/-- Boolean contiguous-sublist test on character lists. -/
def infB (n : List Char) : List Char → Bool
  | [] => prefB n []
  | b :: bs => prefB n (b :: bs) || infB n bs

/-- `needle` occurs as a contiguous substring of `hay`. -/
def strContains (hay needle : String) : Bool :=
  infB needle.data hay.data

/-! ### Helper lemmas: pure characterizations of the two session runners -/

theorem updateSessionStatus_ok (cfg : Config) (u : StatusUpdate) (d : Delivery) :
    (updateSessionStatus cfg u d).outcome = Except.ok () := by
  cases d with
  | response code body =>
      simp only [updateSessionStatus, putStatus]
      split <;> rfl
  | transportError m => rfl

/-- The status updates of one `ClaudeRunner` session, as a pure function of
the agent outcome. -/
def sessionUpdatesPure (cfg : Config) (agent : AgentRun) (startT endT : String) :
    List StatusUpdate :=
  match runClaudeCode agent with
  | RunResult.ok r => [runningU1 startT, runningU2 cfg, completedU r endT]
  | RunResult.error m => [runningU1 startT, runningU2 cfg, failedU m endT]

/-- The session end of one `ClaudeRunner` session, as a pure function of the
agent outcome. -/
def sessionEndPure (agent : AgentRun) : SessionEnd :=
  match runClaudeCode agent with
  | RunResult.ok _ => SessionEnd.completed
  | RunResult.error _ => SessionEnd.failedExit

theorem runSession_eq (cfg : Config) (agent : AgentRun) (s t : String)
    (dl : StatusUpdate → Delivery) :
    runSession cfg agent s t dl =
      ((sessionUpdatesPure cfg agent s t).map (fun u => (u, dl u)), sessionEndPure agent) := by
  unfold runSession sessionUpdatesPure sessionEndPure
  simp only [updateSessionStatus_ok]
  cases runClaudeCode agent with
  | ok r => simp only [updateSessionStatus_ok]; rfl
  | error m => rfl

theorem map_fst_pair (l : List StatusUpdate) (dl : StatusUpdate → Delivery) :
    (l.map (fun u => (u, dl u))).map Prod.fst = l := by
  induction l with
  | nil => rfl
  | cons a as ih => simp [ih]

theorem sessionTrace_eq (cfg : Config) (agent : AgentRun) (s t : String)
    (dl : StatusUpdate → Delivery) :
    sessionTrace cfg agent s t dl = sessionUpdatesPure cfg agent s t := by
  unfold sessionTrace
  rw [runSession_eq]
  exact map_fst_pair _ dl

/-- The status updates of one `ClaudeSDKRunner` session, as a pure function
of the SDK query outcome. -/
def sdkUpdatesPure (cfg : Config) (q : QueryOutcome) (startT endT : String) :
    List StatusUpdate :=
  match runClaudeCodeSdk q with
  | RunResult.ok r => [sdkRunningU1 startT, sdkRunningU2 cfg, sdkCompletedU r endT]
  | RunResult.error m => [sdkRunningU1 startT, sdkRunningU2 cfg, failedU m endT]

/-- The session end of one `ClaudeSDKRunner` session, as a pure function of
the SDK query outcome. -/
def sdkEndPure (q : QueryOutcome) : SessionEnd :=
  match runClaudeCodeSdk q with
  | RunResult.ok _ => SessionEnd.completed
  | RunResult.error _ => SessionEnd.failedExit

theorem runSdkSession_eq (cfg : Config) (q : QueryOutcome) (s t : String)
    (dl : StatusUpdate → Delivery) :
    runSdkSession cfg q s t dl =
      ((sdkUpdatesPure cfg q s t).map (fun u => (u, dl u)), sdkEndPure q) := by
  unfold runSdkSession sdkUpdatesPure sdkEndPure
  simp only [updateSessionStatus_ok]
  cases runClaudeCodeSdk q with
  | ok r => simp only [updateSessionStatus_ok]; rfl
  | error m => rfl

theorem sdkSessionTrace_eq (cfg : Config) (q : QueryOutcome) (s t : String)
    (dl : StatusUpdate → Delivery) :
    sdkSessionTrace cfg q s t dl = sdkUpdatesPure cfg q s t := by
  unfold sdkSessionTrace
  rw [runSdkSession_eq]
  exact map_fst_pair _ dl

/-- The process exit code, as a pure function of environment, agent outcome
and interrupt flag. -/
def mainExitPure (e : Env) (agent : AgentRun) (intr : Bool) : Nat :=
  if missingVars e = [] then
    match claudeRunnerInit e with
    | Except.error _ => 1
    | Except.ok _ =>
        if intr then 0
        else
          match sessionEndPure agent with
          | SessionEnd.completed => 0
          | SessionEnd.failedExit => 1
  else 1

/-- The status updates the process attempts to deliver, as a pure function. -/
def mainUpdatesPure (e : Env) (agent : AgentRun) (intr : Bool) (startT endT : String) :
    List StatusUpdate :=
  if missingVars e = [] then
    match claudeRunnerInit e with
    | Except.error _ => []
    | Except.ok cfg =>
        if intr then [runningU1 startT, runningU2 cfg]
        else sessionUpdatesPure cfg agent startT endT
  else []

theorem mainEntry_eq (e : Env) (agent : AgentRun) (intr : Bool) (s t : String)
    (dl : StatusUpdate → Delivery) :
    mainEntry e agent intr s t dl =
      ((mainUpdatesPure e agent intr s t).map (fun u => (u, dl u)),
        mainExitPure e agent intr) := by
  unfold mainEntry mainUpdatesPure mainExitPure
  split
  · cases claudeRunnerInit e with
    | error m => rfl
    | ok cfg =>
        cases intr with
        | true => rfl
        | false =>
            simp only [runSession_eq]
            cases hse : sessionEndPure agent <;> simp [hse]
  · rfl

theorem prefB_self (l : List Char) : prefB l l = true := by
  induction l with
  | nil => rfl
  | cons a as ih => simp [prefB, ih]

theorem infB_append_self (xs n : List Char) : infB n (xs ++ n) = true := by
  induction xs with
  | nil =>
      cases n with
      | nil => rfl
      | cons c cs => simp [infB, prefB_self]
  | cons x xs ih => simp [infB, ih]

/-- A string always contains its own suffix. -/
theorem strContains_append (a b : String) : strContains (a ++ b) b = true := by
  unfold strContains
  rw [String.data_append]
  exact infB_append_self a.data b.data

/-- The failure log line of `update_session_status` is never the success
log line (their lengths already differ). -/
theorem failLog_ne (x y : String) :
    "Failed to update session status: " ++ x ++ " - " ++ y ≠
      "Session status updated successfully" := by
  intro h
  have hlen := congrArg String.length h
  rw [String.length_append, String.length_append, String.length_append] at hlen
  have h1 : "Failed to update session status: ".length = 33 := rfl
  have h2 : " - ".length = 3 := rfl
  have h3 : "Session status updated successfully".length = 35 := rfl
  omega

/-! ### Claim theorems -/

/-- Claim C1: for every session run (both runner variants, any agent outcome,
any delivery outcomes), the first status update reported has phase `Running`,
exactly one terminal-phase update occurs in the trace, and that terminal
update is the final one — so no update follows a terminal update, and
`Completed`/`Failed` never both occur. -/
theorem c1_phase_lifecycle (cfg : Config) (agent : AgentRun) (q : QueryOutcome)
    (startT endT : String) (dl : StatusUpdate → Delivery) :
    ((sessionTrace cfg agent startT endT dl).head?.map StatusUpdate.phase
        = some Phase.Running
      ∧ (sessionTrace cfg agent startT endT dl).countP (fun u => isTerminal u.phase) = 1
      ∧ ∃ u, (sessionTrace cfg agent startT endT dl).getLast? = some u
          ∧ isTerminal u.phase = true)
    ∧ ((sdkSessionTrace cfg q startT endT dl).head?.map StatusUpdate.phase
        = some Phase.Running
      ∧ (sdkSessionTrace cfg q startT endT dl).countP (fun u => isTerminal u.phase) = 1
      ∧ ∃ u, (sdkSessionTrace cfg q startT endT dl).getLast? = some u
          ∧ isTerminal u.phase = true) := by
  simp only [sessionTrace_eq, sdkSessionTrace_eq]
  refine ⟨?_, ?_⟩
  · unfold sessionUpdatesPure
    cases runClaudeCode agent with
    | ok r => exact ⟨rfl, rfl, completedU r endT, rfl, rfl⟩
    | error m => exact ⟨rfl, rfl, failedU m endT, rfl, rfl⟩
  · unfold sdkUpdatesPure
    cases runClaudeCodeSdk q with
    | ok r => exact ⟨rfl, rfl, sdkCompletedU r endT, rfl, rfl⟩
    | error m => exact ⟨rfl, rfl, failedU m endT, rfl, rfl⟩

/-- Claim C2: `update_session_status` returns normally (never raises) for
every delivery outcome, and the process's status-update sequence and exit
code are the same under any two delivery-outcome assignments — a failed
delivery changes neither the session classification nor the exit code. -/
theorem c2_reporting_never_fatal (cfg : Config) (u : StatusUpdate) (d : Delivery)
    (e : Env) (agent : AgentRun) (intr : Bool) (s t : String)
    (dl dl2 : StatusUpdate → Delivery) :
    (updateSessionStatus cfg u d).outcome = Except.ok ()
    ∧ (mainEntry e agent intr s t dl).2 = (mainEntry e agent intr s t dl2).2
    ∧ (mainEntry e agent intr s t dl).1.map Prod.fst
        = (mainEntry e agent intr s t dl2).1.map Prod.fst := by
  refine ⟨updateSessionStatus_ok cfg u d, ?_, ?_⟩
  · simp [mainEntry_eq]
  · simp [mainEntry_eq, map_fst_pair]

/-- Claim C8: every status update is delivered as a single HTTP PUT to
`{backend_api_url}/research-sessions/{session_name}/status` with the update
as JSON body and a fixed 30-second client timeout; a 200 response logs
success and any other code logs failure without raising; exactly one request
is attempted (no retry). -/
theorem c8_put_contract (cfg : Config) (u : StatusUpdate) (d : Delivery)
    (code : Nat) (body : String) :
    (updateSessionStatus cfg u d).requests =
      [{ method := "PUT"
         url := cfg.backend_api_url ++ "/research-sessions/" ++ cfg.session_name ++ "/status"
         body := u
         timeoutSeconds := 30 }]
    ∧ ((updateSessionStatus cfg u (Delivery.response code body)).logLine =
        "Session status updated successfully" ↔ code = 200)
    ∧ (updateSessionStatus cfg u d).outcome = Except.ok () := by
  refine ⟨?_, ⟨?_, ?_⟩, updateSessionStatus_ok cfg u d⟩
  · cases d with
    | response c b =>
        simp only [updateSessionStatus, putStatus, sessionStatusUrl]
        split <;> rfl
    | transportError m => rfl
  · intro h
    by_contra hne
    have hfail : (updateSessionStatus cfg u (Delivery.response code body)).logLine =
        "Failed to update session status: " ++ toString code ++ " - " ++ body := by
      simp [updateSessionStatus, putStatus, hne]
    rw [hfail] at h
    exact failLog_ne (toString code) body h
  · intro h
    subst h
    rfl

/-- A delivery assignment where every PUT gets a 200 response. -/
def okDelivery : StatusUpdate → Delivery := fun _ => Delivery.response 200 "ok"

/-- An environment with every required variable set and `TIMEOUT=5`. -/
def env5 : Env :=
  { RESEARCH_SESSION_NAME := some "research-1"
    RESEARCH_SESSION_NAMESPACE := none
    PROMPT := some "find pricing"
    WEBSITE_URL := some "http://example.com"
    TIMEOUT := some "5"
    BACKEND_API_URL := none
    ANTHROPIC_API_KEY := some "key" }

/-- An agent run that takes 10 seconds and then returns text. -/
def slowAgent : AgentRun :=
  { duration := 10, effect := AgentEffect.returnsText "analysis text" }

/-- Claim C3 counterexample: with `TIMEOUT=5` and an agent running for 10
seconds (the claim's own example input), main.py does not time out at all —
its wait uses a hard-coded 60-second limit — so the session completes, the
process exits 0, and no reported message contains "timed out after 5
seconds". -/
theorem c3_counterexample :
    (mainEntry env5 slowAgent false "T0" "T1" okDelivery).2 = 0
    ∧ ((mainEntry env5 slowAgent false "T0" "T1" okDelivery).1.map
        (fun p => p.1.phase)).getLast? = some Phase.Completed
    ∧ ((mainEntry env5 slowAgent false "T0" "T1" okDelivery).1.all
        (fun p => !strContains p.1.message "timed out after 5 seconds")) = true := by
  decide

/-- Claim C3 amended: the main.py wait timeout is the hard-coded 60 seconds
(`mainSdkWaitTimeout`), not the `TIMEOUT` environment variable. When the
agent run exceeds 60 seconds the session ends with a `Failed` update whose
message contains "timed out" (the fixed SDK-timeout message, which does not
name the configured value) and the process exits with code 1. -/
theorem c3_amended_hardcoded_timeout (cfg : Config) (agent : AgentRun)
    (s t : String) (dl : StatusUpdate → Delivery) (e : Env)
    (h : mainSdkWaitTimeout < agent.duration) (hmiss : missingVars e = [])
    (hcfg : claudeRunnerInit e = Except.ok cfg) :
    runClaudeCode agent = RunResult.error timeoutMsg
    ∧ (runSession cfg agent s t dl).2 = SessionEnd.failedExit
    ∧ (sessionTrace cfg agent s t dl).getLast? = some (failedU timeoutMsg t)
    ∧ strContains (failedU timeoutMsg t).message "timed out" = true
    ∧ (mainEntry e agent false s t dl).2 = 1 := by
  have hrun : runClaudeCode agent = RunResult.error timeoutMsg := by
    unfold runClaudeCode
    rw [if_pos h]
  refine ⟨hrun, ?_, ?_, ?_, ?_⟩
  · rw [runSession_eq]
    simp [sessionEndPure, hrun]
  · rw [sessionTrace_eq]
    unfold sessionUpdatesPure
    rw [hrun]
    rfl
  · show strContains ("Research failed: " ++ timeoutMsg) "timed out" = true
    decide
  · rw [mainEntry_eq]
    simp [mainExitPure, hmiss, hcfg, sessionEndPure, hrun]

/-- An environment with every required variable set and `TIMEOUT` unset. -/
def envAll : Env :=
  { RESEARCH_SESSION_NAME := some "research-1"
    RESEARCH_SESSION_NAMESPACE := none
    PROMPT := some "find pricing"
    WEBSITE_URL := some "http://example.com"
    TIMEOUT := none
    BACKEND_API_URL := none
    ANTHROPIC_API_KEY := some "key" }

/-- The configuration `ClaudeRunner.__init__` builds from `envAll`. -/
def cfgAll : Config :=
  { session_name := "research-1"
    session_namespace := "default"
    prompt := "find pricing"
    website_url := "http://example.com"
    timeout := 300
    backend_api_url := "http://backend-service:8080/api" }

/-- Witness for Claim C3's amended theorem at a concrete 70-second agent run. -/
theorem c3_amended_hardcoded_timeout_witness :
    runClaudeCode { duration := 70, effect := AgentEffect.returnsText "late" }
      = RunResult.error timeoutMsg
    ∧ (runSession cfgAll { duration := 70, effect := AgentEffect.returnsText "late" }
        "T0" "T1" okDelivery).2 = SessionEnd.failedExit
    ∧ (sessionTrace cfgAll { duration := 70, effect := AgentEffect.returnsText "late" }
        "T0" "T1" okDelivery).getLast? = some (failedU timeoutMsg "T1")
    ∧ strContains (failedU timeoutMsg "T1").message "timed out" = true
    ∧ (mainEntry envAll { duration := 70, effect := AgentEffect.returnsText "late" }
        false "T0" "T1" okDelivery).2 = 1 :=
  c3_amended_hardcoded_timeout cfgAll
    { duration := 70, effect := AgentEffect.returnsText "late" }
    "T0" "T1" okDelivery envAll (by decide) (by decide) (by rfl)

/-- A configuration used as concrete input for the SDK-runner counterexample. -/
def cfgEx : Config :=
  { session_name := "research-2"
    session_namespace := "default"
    prompt := "p"
    website_url := "http://example.org"
    timeout := 300
    backend_api_url := "http://backend-service:8080/api" }

/-- Claim C4 counterexample: in the ClaudeSDKRunner variant, an error-free
SDK response whose result text is empty produces a final `Completed` update
with empty `finalOutput` — not a `Failed` one — because lines 126-137 of
claude_sdk_runner.py return `response.result` without any emptiness check. -/
theorem c4_counterexample :
    pyStrip "" = ""
    ∧ (sdkSessionTrace cfgEx
        (QueryOutcome.response { is_error := false, error_message := "", result := "" })
        "T0" "T1" okDelivery).getLast?
      = some (sdkCompletedU "" "T1")
    ∧ (sdkCompletedU "" "T1").phase = Phase.Completed
    ∧ (sdkCompletedU "" "T1").finalOutput = some "" := by
  refine ⟨rfl, ?_, rfl, rfl⟩
  rw [sdkSessionTrace_eq]
  rfl

/-- Claim C4 amended: in the ClaudeRunner (main.py) variant, an agent run
whose returned text is empty after stripping always ends the session in
`Failed`, and no `Completed` update ever appears in the trace; the
ClaudeSDKRunner variant performs no such emptiness check. -/
theorem c4_amended_empty_output (cfg : Config) (d : Nat) (txt : String)
    (s t : String) (dl : StatusUpdate → Delivery) (h : pyStrip txt = "") :
    (runSession cfg { duration := d, effect := AgentEffect.returnsText txt } s t dl).2
      = SessionEnd.failedExit
    ∧ ((sessionTrace cfg { duration := d, effect := AgentEffect.returnsText txt } s t dl).all
        (fun u => !(u.phase == Phase.Completed))) = true := by
  have hrun : ∃ m, runClaudeCode { duration := d, effect := AgentEffect.returnsText txt }
      = RunResult.error m := by
    by_cases hd : mainSdkWaitTimeout < d
    · exact ⟨timeoutMsg, by simp [runClaudeCode, hd]⟩
    · exact ⟨emptyResultMsg, by simp [runClaudeCode, hd, h]⟩
  obtain ⟨m, hm⟩ := hrun
  constructor
  · rw [runSession_eq]
    simp [sessionEndPure, hm]
  · rw [sessionTrace_eq]
    unfold sessionUpdatesPure
    rw [hm]
    rfl

/-- Witness for Claim C4's amended theorem at whitespace-only agent output. -/
theorem c4_amended_empty_output_witness :
    pyStrip "  " = ""
    ∧ (runSession cfgAll { duration := 1, effect := AgentEffect.returnsText "  " }
        "T0" "T1" okDelivery).2 = SessionEnd.failedExit
    ∧ ((sessionTrace cfgAll { duration := 1, effect := AgentEffect.returnsText "  " }
        "T0" "T1" okDelivery).all
        (fun u => !(u.phase == Phase.Completed))) = true :=
  ⟨by decide,
   c4_amended_empty_output cfgAll 1 "  " "T0" "T1" okDelivery (by decide)⟩

/-- Claim C5: when the agent completes within the wait limit and returns
non-empty text, the supervisor returns that captured text unchanged and the
final status update is `Completed` with `finalOutput` equal to the text —
in both runner variants. -/
theorem c5_success_passthrough (cfg : Config) (d : Nat) (txt : String)
    (s t : String) (dl : StatusUpdate → Delivery)
    (hd : d ≤ mainSdkWaitTimeout) (ht : pyStrip txt ≠ "") :
    runClaudeCode { duration := d, effect := AgentEffect.returnsText txt }
      = RunResult.ok txt
    ∧ (runSession cfg { duration := d, effect := AgentEffect.returnsText txt } s t dl).2
        = SessionEnd.completed
    ∧ (sessionTrace cfg { duration := d, effect := AgentEffect.returnsText txt } s t dl).getLast?
        = some (completedU txt t)
    ∧ (completedU txt t).phase = Phase.Completed
    ∧ (completedU txt t).finalOutput = some txt
    ∧ runClaudeCodeSdk
        (QueryOutcome.response { is_error := false, error_message := "", result := txt })
      = RunResult.ok txt
    ∧ (sdkSessionTrace cfg
        (QueryOutcome.response { is_error := false, error_message := "", result := txt })
        s t dl).getLast? = some (sdkCompletedU txt t) := by
  have hnd : ¬ mainSdkWaitTimeout < d := Nat.not_lt.mpr hd
  have hrun : runClaudeCode { duration := d, effect := AgentEffect.returnsText txt }
      = RunResult.ok txt := by
    simp [runClaudeCode, hnd, ht]
  refine ⟨hrun, ?_, ?_, rfl, rfl, rfl, ?_⟩
  · rw [runSession_eq]
    simp [sessionEndPure, hrun]
  · rw [sessionTrace_eq]
    unfold sessionUpdatesPure
    rw [hrun]
    rfl
  · rw [sdkSessionTrace_eq]
    rfl

/-- Witness for Claim C5 at the spec's own scenario: the agent emits "ok". -/
theorem c5_success_passthrough_witness :
    (1 ≤ mainSdkWaitTimeout ∧ pyStrip "ok" ≠ "")
    ∧ (runClaudeCode { duration := 1, effect := AgentEffect.returnsText "ok" }
        = RunResult.ok "ok"
      ∧ (runSession cfgAll { duration := 1, effect := AgentEffect.returnsText "ok" }
          "T0" "T1" okDelivery).2 = SessionEnd.completed
      ∧ (sessionTrace cfgAll { duration := 1, effect := AgentEffect.returnsText "ok" }
          "T0" "T1" okDelivery).getLast? = some (completedU "ok" "T1")
      ∧ (completedU "ok" "T1").phase = Phase.Completed
      ∧ (completedU "ok" "T1").finalOutput = some "ok"
      ∧ runClaudeCodeSdk
          (QueryOutcome.response { is_error := false, error_message := "", result := "ok" })
        = RunResult.ok "ok"
      ∧ (sdkSessionTrace cfgAll
          (QueryOutcome.response { is_error := false, error_message := "", result := "ok" })
          "T0" "T1" okDelivery).getLast? = some (sdkCompletedU "ok" "T1")) :=
  ⟨⟨by decide, by decide⟩,
   c5_success_passthrough cfgAll 1 "ok" "T0" "T1" okDelivery (by decide) (by decide)⟩

/-- Claim C6: when the SDK query reports an error outcome with diagnostic
text `em`, the session's final update has phase `Failed` and its message
contains `em`. -/
theorem c6_diagnostic_in_message (cfg : Config) (em rres : String)
    (s t : String) (dl : StatusUpdate → Delivery) :
    (sdkSessionTrace cfg
        (QueryOutcome.response { is_error := true, error_message := em, result := rres })
        s t dl).getLast?
      = some (failedU ("Claude Code SDK failed: " ++ em) t)
    ∧ (failedU ("Claude Code SDK failed: " ++ em) t).phase = Phase.Failed
    ∧ strContains (failedU ("Claude Code SDK failed: " ++ em) t).message em = true := by
  refine ⟨?_, rfl, ?_⟩
  · rw [sdkSessionTrace_eq]
    rfl
  · show strContains ("Research failed: " ++ ("Claude Code SDK failed: " ++ em)) em = true
    unfold strContains
    rw [String.data_append, String.data_append, ← List.append_assoc]
    exact infB_append_self _ _

theorem missingVars_mem (e : Env) (v : String) (o : Option String)
    (hmem : (v, o) ∈ requiredEnv e) (ho : truthy o = false) : v ∈ missingVars e := by
  unfold missingVars
  exact List.mem_map.mpr ⟨(v, o), List.mem_filter.mpr ⟨hmem, by simp [ho]⟩, rfl⟩

/-- Claim C7: if any of the four required environment variables is unset at
startup, the process exits with code 1 having attempted zero status updates. -/
theorem c7_missing_env_exits_early (e : Env) (agent : AgentRun) (intr : Bool)
    (s t : String) (dl : StatusUpdate → Delivery)
    (h : e.RESEARCH_SESSION_NAME = none ∨ e.PROMPT = none
        ∨ e.WEBSITE_URL = none ∨ e.ANTHROPIC_API_KEY = none) :
    mainEntry e agent intr s t dl = ([], 1) := by
  have hne : missingVars e ≠ [] := by
    rcases h with h | h | h | h
    · exact List.ne_nil_of_mem (missingVars_mem e "RESEARCH_SESSION_NAME"
        e.RESEARCH_SESSION_NAME (by simp [requiredEnv]) (by rw [h]; rfl))
    · exact List.ne_nil_of_mem (missingVars_mem e "PROMPT"
        e.PROMPT (by simp [requiredEnv]) (by rw [h]; rfl))
    · exact List.ne_nil_of_mem (missingVars_mem e "WEBSITE_URL"
        e.WEBSITE_URL (by simp [requiredEnv]) (by rw [h]; rfl))
    · exact List.ne_nil_of_mem (missingVars_mem e "ANTHROPIC_API_KEY"
        e.ANTHROPIC_API_KEY (by simp [requiredEnv]) (by rw [h]; rfl))
  unfold mainEntry
  rw [if_neg hne]

/-- An environment with every variable unset. -/
def envNone : Env :=
  { RESEARCH_SESSION_NAME := none
    RESEARCH_SESSION_NAMESPACE := none
    PROMPT := none
    WEBSITE_URL := none
    TIMEOUT := none
    BACKEND_API_URL := none
    ANTHROPIC_API_KEY := none }

/-- Witness for Claim C7 with `PROMPT` (and the rest) unset. -/
theorem c7_missing_env_exits_early_witness :
    envNone.PROMPT = none
    ∧ mainEntry envNone { duration := 1, effect := AgentEffect.returnsText "ok" }
        false "T0" "T1" okDelivery = ([], 1) :=
  ⟨rfl, c7_missing_env_exits_early envNone
    { duration := 1, effect := AgentEffect.returnsText "ok" }
    false "T0" "T1" okDelivery (Or.inr (Or.inl rfl))⟩

/-- Claim C9: with a valid environment, an operator interrupt
(`KeyboardInterrupt`) during the session exits with code 0, while an
exception propagating from the agent invocation — the only unrecovered
exception source inside the session — exits with code 1. -/
theorem c9_exit_codes (e : Env) (agent : AgentRun) (s t : String)
    (dl : StatusUpdate → Delivery) (cfg : Config) (m : String)
    (hmiss : missingVars e = []) (hcfg : claudeRunnerInit e = Except.ok cfg) :
    (mainEntry e agent true s t dl).2 = 0
    ∧ (runClaudeCode agent = RunResult.error m
        → (mainEntry e agent false s t dl).2 = 1) := by
  constructor
  · rw [mainEntry_eq]
    simp [mainExitPure, hmiss, hcfg]
  · intro hrun
    rw [mainEntry_eq]
    simp [mainExitPure, hmiss, hcfg, sessionEndPure, hrun]

/-- Witness for Claim C9: a valid environment, an agent raising "boom". -/
theorem c9_exit_codes_witness :
    (missingVars envAll = [] ∧ claudeRunnerInit envAll = Except.ok cfgAll)
    ∧ (mainEntry envAll { duration := 1, effect := AgentEffect.raises "boom" }
        true "T0" "T1" okDelivery).2 = 0
    ∧ (mainEntry envAll { duration := 1, effect := AgentEffect.raises "boom" }
        false "T0" "T1" okDelivery).2 = 1 :=
  ⟨⟨by decide, by rfl⟩,
   (c9_exit_codes envAll { duration := 1, effect := AgentEffect.raises "boom" }
      "T0" "T1" okDelivery cfgAll "boom" (by decide) (by rfl)).1,
   (c9_exit_codes envAll { duration := 1, effect := AgentEffect.raises "boom" }
      "T0" "T1" okDelivery cfgAll "boom" (by decide) (by rfl)).2 (by rfl)⟩

/-- Claim C10: a required environment variable set to the empty string is
treated exactly like an absent one — the process exits with code 1 having
attempted zero status updates. -/
theorem c10_empty_env_like_missing (e : Env) (agent : AgentRun) (intr : Bool)
    (s t : String) (dl : StatusUpdate → Delivery)
    (h : e.RESEARCH_SESSION_NAME = some "" ∨ e.PROMPT = some ""
        ∨ e.WEBSITE_URL = some "" ∨ e.ANTHROPIC_API_KEY = some "") :
    mainEntry e agent intr s t dl = ([], 1) := by
  have hne : missingVars e ≠ [] := by
    rcases h with h | h | h | h
    · exact List.ne_nil_of_mem (missingVars_mem e "RESEARCH_SESSION_NAME"
        e.RESEARCH_SESSION_NAME (by simp [requiredEnv]) (by rw [h]; rfl))
    · exact List.ne_nil_of_mem (missingVars_mem e "PROMPT"
        e.PROMPT (by simp [requiredEnv]) (by rw [h]; rfl))
    · exact List.ne_nil_of_mem (missingVars_mem e "WEBSITE_URL"
        e.WEBSITE_URL (by simp [requiredEnv]) (by rw [h]; rfl))
    · exact List.ne_nil_of_mem (missingVars_mem e "ANTHROPIC_API_KEY"
        e.ANTHROPIC_API_KEY (by simp [requiredEnv]) (by rw [h]; rfl))
  unfold mainEntry
  rw [if_neg hne]

/-- An environment where `ANTHROPIC_API_KEY` is set but empty. -/
def envEmptyKey : Env :=
  { RESEARCH_SESSION_NAME := some "research-1"
    RESEARCH_SESSION_NAMESPACE := none
    PROMPT := some "find pricing"
    WEBSITE_URL := some "http://example.com"
    TIMEOUT := none
    BACKEND_API_URL := none
    ANTHROPIC_API_KEY := some "" }

/-- Witness for Claim C10 with `ANTHROPIC_API_KEY` set to the empty string. -/
theorem c10_empty_env_like_missing_witness :
    envEmptyKey.ANTHROPIC_API_KEY = some ""
    ∧ mainEntry envEmptyKey { duration := 1, effect := AgentEffect.returnsText "ok" }
        false "T0" "T1" okDelivery = ([], 1) :=
  ⟨rfl, c10_empty_env_like_missing envEmptyKey
    { duration := 1, effect := AgentEffect.returnsText "ok" }
    false "T0" "T1" okDelivery (Or.inr (Or.inr (Or.inr rfl)))⟩
